import Mathlib

/-!
Verification of the GPS tracking backend (`src/backend/server.py`).

The Python source is shallowly embedded below:

* floats are modelled as `ℚ` where the code only compares and copies them
  (speeds, coordinates flowing through the ingest endpoint, timestamps),
  and as `ℝ` where the code does trigonometry (`calculate_distance`);
* the Mongo collection `db.gps_data` is modelled as a list of records,
  an insert that can fail is modelled by an explicit `insertOk` flag and
  an `Except` result (a raised exception is the `.error` case);
* WebSocket connections are modelled by natural-number identities; the
  `ConnectionManager` list and its Python `for`-loop over a mutating list
  are modelled index-by-index exactly as CPython executes them.
-/

namespace GPSServer

/-- Status classification, from `determine_status` (server.py:165-172).
The configured global `SPEED_LIMIT` (an environment variable in the
source) is passed explicitly.  The source returns the Indonesian strings
"diam" (= the spec's `stopped` label) and "bergerak" (= the spec's
`moving` label). -/
def determine_status (SPEED_LIMIT : ℚ) (speed : ℚ) : String :=
  if speed = 0 then "diam"
  else if SPEED_LIMIT < speed then "overspeed"
  else "bergerak"

/-- Input model of the `GPSInput` pydantic class (server.py:72-78).
The pydantic model declares no validators and no range constraints, so
every well-typed record is accepted; optional fields are stored with
their resolved values. -/
structure GPSInput where
  device_id : String
  latitude : ℚ
  longitude : ℚ
  speed : ℚ
  altitude : ℚ
  heading : ℚ
deriving DecidableEq

/-- The stored document built in `save_gps_data` (server.py:239-250). -/
structure GPSData where
  device_id : String
  latitude : ℚ
  longitude : ℚ
  speed : ℚ
  altitude : ℚ
  heading : ℚ
  timestamp : ℚ
  address : String
  status : String
  user_id : String
deriving DecidableEq

/-- The `data` payload of the `gps_update` broadcast message built in
`save_gps_data` (server.py:256-266). -/
structure BroadcastEvent where
  device_id : String
  latitude : ℚ
  longitude : ℚ
  speed : ℚ
  status : String
  timestamp : ℚ
deriving DecidableEq

/-- Response of the `/api/gps` endpoint (server.py:270); the Mongo
`inserted_id` is modelled by the index of the new record in the store. -/
structure SaveResponse where
  message : String
  id : ℕ
  status : String
deriving DecidableEq

/-- Observable server state touched by `save_gps_data`: the `gps_data`
collection and the log of messages handed to `manager.broadcast`. -/
structure ServerState where
  gps_store : List GPSData
  broadcast_log : List BroadcastEvent
deriving DecidableEq

/-- The `/api/gps` handler `save_gps_data` (server.py:231-270).
`insertOk` tells whether `db.gps_data.insert_one` succeeds; when it does
not, the awaited insert raises, the exception propagates out of the
handler (`.error`), and the broadcast on line 268 is never reached.
There is no validation anywhere in the handler or the pydantic model. -/
def save_gps_data (SPEED_LIMIT : ℚ) (insertOk : Bool) (now : ℚ) (user : String)
    (gps_input : GPSInput) (st : ServerState) : ServerState × Except String SaveResponse :=
  let status := determine_status SPEED_LIMIT gps_input.speed
  let gps_data : GPSData :=
    { device_id := gps_input.device_id
      latitude := gps_input.latitude
      longitude := gps_input.longitude
      speed := gps_input.speed
      altitude := gps_input.altitude
      heading := gps_input.heading
      timestamp := now
      address := ""
      status := status
      user_id := user }
  if insertOk then
    let st1 : ServerState := { st with gps_store := st.gps_store ++ [gps_data] }
    let broadcast_data : BroadcastEvent :=
      { device_id := gps_data.device_id
        latitude := gps_data.latitude
        longitude := gps_data.longitude
        speed := gps_data.speed
        status := gps_data.status
        timestamp := gps_data.timestamp }
    let st2 : ServerState := { st1 with broadcast_log := st1.broadcast_log ++ [broadcast_data] }
    (st2, Except.ok { message := "Data GPS berhasil disimpan", id := st.gps_store.length, status := status })
  else
    (st, Except.error "insert_one failed")

/-- `ConnectionManager.connect` (server.py:94-96): `accept` then an
unconditional `list.append`. -/
def connect (active_connections : List ℕ) (websocket : ℕ) : List ℕ :=
  active_connections ++ [websocket]

/-- `ConnectionManager.disconnect` (server.py:98-100): remove the first
occurrence if present. -/
def disconnect (active_connections : List ℕ) (websocket : ℕ) : List ℕ :=
  if websocket ∈ active_connections then active_connections.erase websocket
  else active_connections

/-- One CPython `for`-loop over `self.active_connections` by index, as in
`ConnectionManager.broadcast` (server.py:102-107): the list iterator keeps
a cursor `i` into the live list; a failing send removes the connection
from that same list (`disconnect`) while the cursor still advances.
`fails c = true` models `connection.send_text` raising.  Returns the
final list and the connections that received the message.  `fuel` bounds
the iteration count; the loop makes at most `conns.length` steps because
the cursor strictly increases and the list never grows. -/
def broadcastLoop (fails : ℕ → Bool) : ℕ → ℕ → List ℕ → List ℕ → List ℕ × List ℕ
  | 0, _, conns, sent => (conns, sent)
  | fuel + 1, i, conns, sent =>
    if h : i < conns.length then
      let c := conns.get ⟨i, h⟩
      if fails c then
        broadcastLoop fails fuel (i + 1) (disconnect conns c) sent
      else
        broadcastLoop fails fuel (i + 1) conns (sent ++ [c])
    else
      (conns, sent)

/-- `ConnectionManager.broadcast` (server.py:102-107). -/
def broadcast (fails : ℕ → Bool) (active_connections : List ℕ) : List ℕ × List ℕ :=
  broadcastLoop fails active_connections.length 0 active_connections []

/-- Python's `math.radians` as used in `calculate_distance`. -/
noncomputable def radians (x : ℝ) : ℝ :=
  x * Real.pi / 180

/-- Two-argument arctangent with the C99 / Python `math.atan2` case
split (signed zeros aside, which `ℝ` cannot express). -/
noncomputable def atan2 (y x : ℝ) : ℝ :=
  if 0 < x then Real.arctan (y / x)
  else if x < 0 then
    (if 0 ≤ y then Real.arctan (y / x) + Real.pi else Real.arctan (y / x) - Real.pi)
  else
    (if 0 < y then Real.pi / 2 else if y < 0 then -(Real.pi / 2) else 0)

/-- `calculate_distance` (server.py:148-163): Haversine distance in km
with Earth radius 6371. -/
noncomputable def calculate_distance (lat1 lon1 lat2 lon2 : ℝ) : ℝ :=
  let R : ℝ := 6371
  let lat1_rad := radians lat1
  let lon1_rad := radians lon1
  let lat2_rad := radians lat2
  let lon2_rad := radians lon2
  let dlat := lat2_rad - lat1_rad
  let dlon := lon2_rad - lon1_rad
  let a := Real.sin (dlat / 2) ^ 2 +
    Real.cos lat1_rad * Real.cos lat2_rad * Real.sin (dlon / 2) ^ 2
  let c := 2 * atan2 (Real.sqrt a) (Real.sqrt (1 - a))
  R * c

/-- One timestamped report for a single device, as folded by the
session tracker (`device_id` is the key of the per-device map and is
fixed outside). -/
structure TimedReport where
  latitude : ℚ
  longitude : ℚ
  speed : ℚ
  observed_at : ℚ
deriving DecidableEq

/-- The `TravelSession` aggregate (server.py:80-87).  The source
declares this pydantic model but never wires it into any handler; the
spec fixes its update rule, which is modelled below from the spec. -/
structure TravelSession where
  device_id : String
  start_time : ℚ
  end_time : Option ℚ
  total_distance : ℝ
  max_speed : ℚ
  avg_speed : ℚ
  overspeed_count : ℕ

/-- Modelled from the spec: the SessionTracker's per-device entry for an
open session — the `TravelSession` aggregate plus the bookkeeping fields
the spec's update rule reads (`last_position`, the last update time used
for the idle-gap check, and the report count driving the running mean);
none of this bookkeeping exists in the source handlers. -/
structure OpenSession where
  session : TravelSession
  last_position : ℚ × ℚ
  last_update : ℚ
  report_count : ℕ

/-- Modelled from the spec: a freshly opened session, "start_time =
observed_at, last_position = report position, all aggregates zeroed". -/
def freshSession (dev : String) (r : TimedReport) : OpenSession :=
  { session :=
      { device_id := dev
        start_time := r.observed_at
        end_time := none
        total_distance := 0
        max_speed := 0
        avg_speed := 0
        overspeed_count := 0 }
    last_position := (r.latitude, r.longitude)
    last_update := r.observed_at
    report_count := 0 }

/-- Modelled from the spec: steps 3-5 of the SessionTracker update
(max speed, running mean, overspeed counter keyed on the classified
status), plus the bookkeeping of the last update time. -/
def applyStats (SPEED_LIMIT : ℚ) (o : OpenSession) (r : TimedReport) : OpenSession :=
  let n := o.report_count + 1
  { o with
    session :=
      { o.session with
        max_speed := max o.session.max_speed r.speed
        avg_speed := o.session.avg_speed + (r.speed - o.session.avg_speed) / (n : ℚ)
        overspeed_count := o.session.overspeed_count +
          (if determine_status SPEED_LIMIT r.speed = "overspeed" then 1 else 0) }
    last_update := r.observed_at
    report_count := n }

/-- Modelled from the spec: `SessionTracker.update` for one device —
missing from the source, which never updates a `TravelSession`.  A report
after an idle gap longer than `IDLE_TIMEOUT` (or with no open session)
opens a fresh session; otherwise the Haversine delta from
`last_position` is accumulated; steps 3-5 always run. -/
noncomputable def sessionUpdate (SPEED_LIMIT IDLE_TIMEOUT : ℚ) (dev : String)
    (st : Option OpenSession) (r : TimedReport) : OpenSession :=
  match st with
  | none => applyStats SPEED_LIMIT (freshSession dev r) r
  | some o =>
    if IDLE_TIMEOUT < r.observed_at - o.last_update then
      applyStats SPEED_LIMIT (freshSession dev r) r
    else
      let delta := calculate_distance (o.last_position.1 : ℝ) (o.last_position.2 : ℝ)
        (r.latitude : ℝ) (r.longitude : ℝ)
      let o1 : OpenSession :=
        { o with
          session := { o.session with total_distance := o.session.total_distance + delta }
          last_position := (r.latitude, r.longitude) }
      applyStats SPEED_LIMIT o1 r

/-- Modelled from the spec: folding a report sequence for one device
through `SessionTracker.update`, starting from an open session. -/
noncomputable def foldOpen (SPEED_LIMIT IDLE_TIMEOUT : ℚ) (dev : String)
    (o : OpenSession) (rs : List TimedReport) : OpenSession :=
  rs.foldl (fun s r => sessionUpdate SPEED_LIMIT IDLE_TIMEOUT dev (some s) r) o

/-- Modelled from the spec: folding a report sequence for one device
starting with no open session. -/
noncomputable def runTracker (SPEED_LIMIT IDLE_TIMEOUT : ℚ) (dev : String)
    (rs : List TimedReport) : Option OpenSession :=
  rs.foldl (fun s r => some (sessionUpdate SPEED_LIMIT IDLE_TIMEOUT dev s r)) none

/-- Total Haversine length of the polyline that starts at `p` and visits
the reports' positions in order. -/
noncomputable def pathDistance : ℚ × ℚ → List TimedReport → ℝ
  | _, [] => 0
  | p, r :: rs =>
    calculate_distance (p.1 : ℝ) (p.2 : ℝ) (r.latitude : ℝ) (r.longitude : ℝ) +
      pathDistance (r.latitude, r.longitude) rs

/-- Sum of pairwise Haversine distances between consecutive report
positions. -/
noncomputable def sumPairwise : List TimedReport → ℝ
  | [] => 0
  | r :: rs => pathDistance (r.latitude, r.longitude) rs

/-- Maximum submitted speed of a report sequence (0 for the empty one). -/
def maxSpeedOf : List TimedReport → ℚ
  | [] => 0
  | r :: rs => rs.foldl (fun m x => max m x.speed) r.speed

/-- Number of reports with speed strictly above the limit. -/
def overspeedCount (SPEED_LIMIT : ℚ) (rs : List TimedReport) : ℕ :=
  rs.countP (fun r => decide (SPEED_LIMIT < r.speed))

/-- No idle gap: every report follows the previous timestamp (starting
from `t`) within `IDLE_TIMEOUT`. -/
def noGap (IDLE_TIMEOUT : ℚ) : ℚ → List TimedReport → Bool
  | _, [] => true
  | t, r :: rs => decide (r.observed_at - t ≤ IDLE_TIMEOUT) && noGap IDLE_TIMEOUT r.observed_at rs

/-! Helper lemmas. -/

theorem status_eq_overspeed_iff (SPEED_LIMIT s : ℚ) (hL : 0 ≤ SPEED_LIMIT) :
    determine_status SPEED_LIMIT s = "overspeed" ↔ SPEED_LIMIT < s := by
  unfold determine_status
  split_ifs with h1 h2
  · subst h1
    simp only [show ("diam" = "overspeed") = False by simp, false_iff, not_lt]
    exact hL
  · simp [h2]
  · simp only [show ("bergerak" = "overspeed") = False by simp, false_iff]
    exact h2

/-! C5: classification assigns exactly one label, by the zero / strict
threshold / default rules. -/

/-- C5: for every speed `s ≥ 0` and configured limit, `determine_status`
returns exactly one of the three labels — "diam" (stopped) when `s = 0`,
"overspeed" when `s ≠ 0` and `s` strictly exceeds the limit, "bergerak"
(moving) otherwise; it is a pure function of `(speed, SPEED_LIMIT)` by
construction. -/
theorem determine_status_cases (SPEED_LIMIT speed : ℚ) (hs : 0 ≤ speed) :
    (determine_status SPEED_LIMIT speed = "diam" ∨
      determine_status SPEED_LIMIT speed = "overspeed" ∨
      determine_status SPEED_LIMIT speed = "bergerak") ∧
    (speed = 0 → determine_status SPEED_LIMIT speed = "diam") ∧
    (speed ≠ 0 → SPEED_LIMIT < speed → determine_status SPEED_LIMIT speed = "overspeed") ∧
    (speed ≠ 0 → ¬ SPEED_LIMIT < speed → determine_status SPEED_LIMIT speed = "bergerak") := by
  unfold determine_status
  split_ifs with h1 h2 <;> simp_all

/-- Witness for C5 at `SPEED_LIMIT = 80`, `speed = 95`. -/
theorem determine_status_cases_witness :
    (0 : ℚ) ≤ 95 ∧
    ((determine_status 80 95 = "diam" ∨ determine_status 80 95 = "overspeed" ∨
        determine_status 80 95 = "bergerak") ∧
      ((95 : ℚ) = 0 → determine_status 80 95 = "diam") ∧
      ((95 : ℚ) ≠ 0 → (80 : ℚ) < 95 → determine_status 80 95 = "overspeed") ∧
      ((95 : ℚ) ≠ 0 → ¬ (80 : ℚ) < 95 → determine_status 80 95 = "bergerak")) :=
  ⟨by norm_num, determine_status_cases 80 95 (by norm_num)⟩

/-! C6: the overspeed threshold is strict, but the zero rule has
precedence, so the claim fails when speed and limit are both zero (and
its unguarded iff fails for a negative limit). -/

/-- C6 counterexample: at `speed = SPEED_LIMIT = 0` the code classifies
"diam" (stopped), not "bergerak" (moving) as the claim requires for a
speed equal to the limit; and at `SPEED_LIMIT = -1`, `speed = 0` we have
`speed > SPEED_LIMIT` yet the status is not "overspeed". -/
theorem determine_status_equal_speed_counterexample :
    determine_status 0 0 = "diam" ∧ determine_status 0 0 ≠ "bergerak" ∧
    ((-1 : ℚ) < 0 ∧ determine_status (-1) 0 ≠ "overspeed") := by
  refine ⟨rfl, by simp [determine_status], by norm_num, by simp [determine_status]⟩

/-- C6 amended: for `s ≥ 0` and a nonnegative limit, the status is
"overspeed" iff `s` strictly exceeds the limit; a speed equal to the
limit is never "overspeed", and is "bergerak" (moving) whenever it is
nonzero — at `s = SPEED_LIMIT = 0` the zero rule wins and the status is
"diam" (stopped). -/
theorem determine_status_overspeed_strict (SPEED_LIMIT s : ℚ)
    (hL : 0 ≤ SPEED_LIMIT) (hs : 0 ≤ s) :
    ((determine_status SPEED_LIMIT s = "overspeed") ↔ SPEED_LIMIT < s) ∧
    (s = SPEED_LIMIT → determine_status SPEED_LIMIT s ≠ "overspeed") ∧
    (s = SPEED_LIMIT → s ≠ 0 → determine_status SPEED_LIMIT s = "bergerak") := by
  refine ⟨status_eq_overspeed_iff SPEED_LIMIT s hL, ?_, ?_⟩
  · intro he hov
    rw [status_eq_overspeed_iff SPEED_LIMIT s hL, he] at hov
    exact lt_irrefl SPEED_LIMIT hov
  · intro he hne
    unfold determine_status
    rw [if_neg hne, if_neg]
    rw [he]
    exact lt_irrefl SPEED_LIMIT

/-- Witness for C6's amended theorem at `SPEED_LIMIT = s = 80`. -/
theorem determine_status_overspeed_strict_witness :
    (0 : ℚ) ≤ 80 ∧
    (((determine_status 80 80 = "overspeed") ↔ (80 : ℚ) < 80) ∧
      ((80 : ℚ) = 80 → determine_status 80 80 ≠ "overspeed") ∧
      ((80 : ℚ) = 80 → (80 : ℚ) ≠ 0 → determine_status 80 80 = "bergerak")) :=
  ⟨by norm_num, determine_status_overspeed_strict 80 80 (by norm_num) (by norm_num)⟩

/-! C9: negative speeds are accepted and classified "bergerak". -/

/-- C9: `determine_status` is total, and a report with negative speed is
accepted by `save_gps_data` without any error: its speed is neither zero
nor above the (nonnegative) limit, so it is stored and classified with
the "bergerak" (moving) label. -/
theorem negative_speed_classified_moving (SPEED_LIMIT now : ℚ) (user : String)
    (g : GPSInput) (st : ServerState) (hneg : g.speed < 0) (hL : 0 ≤ SPEED_LIMIT) :
    determine_status SPEED_LIMIT g.speed = "bergerak" ∧
    (save_gps_data SPEED_LIMIT true now user g st).2 =
      Except.ok { message := "Data GPS berhasil disimpan", id := st.gps_store.length, status := "bergerak" } ∧
    (save_gps_data SPEED_LIMIT true now user g st).1.gps_store.length
      = st.gps_store.length + 1 := by
  have hst : determine_status SPEED_LIMIT g.speed = "bergerak" := by
    unfold determine_status
    rw [if_neg (ne_of_lt hneg), if_neg (not_lt.mpr (le_of_lt (lt_of_lt_of_le hneg hL)))]
  refine ⟨hst, ?_, ?_⟩ <;> simp [save_gps_data, hst]

/-- Witness for C9 at speed `-5`, limit `80`. -/
theorem negative_speed_classified_moving_witness :
    (-5 : ℚ) < 0 ∧ (0 : ℚ) ≤ 80 ∧
    (determine_status 80 (-5) = "bergerak" ∧
      (save_gps_data 80 true 0 "user"
        { device_id := "D1", latitude := 1, longitude := 2, speed := -5,
          altitude := 0, heading := 0 }
        { gps_store := [], broadcast_log := [] }).2 =
        Except.ok { message := "Data GPS berhasil disimpan", id := List.length ([] : List GPSData), status := "bergerak" } ∧
      (save_gps_data 80 true 0 "user"
        { device_id := "D1", latitude := 1, longitude := 2, speed := -5,
          altitude := 0, heading := 0 }
        { gps_store := [], broadcast_log := [] }).1.gps_store.length
        = List.length ([] : List GPSData) + 1) :=
  ⟨by norm_num, by norm_num,
    negative_speed_classified_moving 80 0 "user"
      { device_id := "D1", latitude := 1, longitude := 2, speed := -5,
        altitude := 0, heading := 0 }
      { gps_store := [], broadcast_log := [] } (by norm_num) (by norm_num)⟩

/-! C2: the claimed input validation does not exist — `GPSInput` has no
validators and `save_gps_data` checks nothing. -/

/-- C2 counterexample: the spec's own invalid input (latitude 200, and
here also an empty device id and a negative speed) is accepted — the
handler returns success and appends a record to the store, instead of
returning a `ValidationError` with no side effect. -/
theorem ingest_no_validation_counterexample :
    (save_gps_data 80 true 0 "user"
      { device_id := "", latitude := 200, longitude := 300, speed := -5,
        altitude := 0, heading := 0 }
      { gps_store := [], broadcast_log := [] }).2 =
      Except.ok { message := "Data GPS berhasil disimpan", id := 0, status := "bergerak" } ∧
    (save_gps_data 80 true 0 "user"
      { device_id := "", latitude := 200, longitude := 300, speed := -5,
        altitude := 0, heading := 0 }
      { gps_store := [], broadcast_log := [] }).1.gps_store.length = 1 := by
  exact ⟨rfl, rfl⟩

/-- C2 amended: `save_gps_data` performs no validation at all.  A report
with an empty device id, an out-of-range latitude or longitude, or a
negative speed is processed exactly like any other report: it is
classified, appended to the store, and broadcast, and the handler
returns success. -/
theorem ingest_accepts_invalid_input (SPEED_LIMIT now : ℚ) (user : String)
    (g : GPSInput) (st : ServerState)
    (hinvalid : g.device_id = "" ∨ g.latitude < -90 ∨ 90 < g.latitude ∨
      g.longitude < -180 ∨ 180 < g.longitude ∨ g.speed < 0) :
    (save_gps_data SPEED_LIMIT true now user g st).2 =
      Except.ok { message := "Data GPS berhasil disimpan", id := st.gps_store.length
                  status := determine_status SPEED_LIMIT g.speed } ∧
    (save_gps_data SPEED_LIMIT true now user g st).1.gps_store =
      st.gps_store ++
        [{ device_id := g.device_id, latitude := g.latitude, longitude := g.longitude
           speed := g.speed, altitude := g.altitude, heading := g.heading
           timestamp := now, address := "", status := determine_status SPEED_LIMIT g.speed
           user_id := user }] := by
  exact ⟨rfl, rfl⟩

/-- Witness for C2's amended theorem at latitude 200. -/
theorem ingest_accepts_invalid_input_witness :
    (("D1" = "" ∨ (200 : ℚ) < -90 ∨ (90 : ℚ) < 200 ∨ (0 : ℚ) < -180 ∨ (180 : ℚ) < 0 ∨
        (10 : ℚ) < 0) ) ∧
    ((save_gps_data 80 true 7 "user"
        { device_id := "D1", latitude := 200, longitude := 0, speed := 10,
          altitude := 0, heading := 0 }
        { gps_store := [], broadcast_log := [] }).2 =
      Except.ok { message := "Data GPS berhasil disimpan", id := List.length ([] : List GPSData)
                  status := determine_status 80 10 } ∧
      (save_gps_data 80 true 7 "user"
        { device_id := "D1", latitude := 200, longitude := 0, speed := 10,
          altitude := 0, heading := 0 }
        { gps_store := [], broadcast_log := [] }).1.gps_store =
        ([] : List GPSData) ++
          [{ device_id := "D1", latitude := 200, longitude := 0
             speed := 10, altitude := 0, heading := 0
             timestamp := 7, address := "", status := determine_status 80 10
             user_id := "user" }]) :=
  ⟨by norm_num,
    ingest_accepts_invalid_input 80 7 "user"
      { device_id := "D1", latitude := 200, longitude := 0, speed := 10,
        altitude := 0, heading := 0 }
      { gps_store := [], broadcast_log := [] } (by norm_num)⟩

/-! C3: a failing durable append aborts the handler before the
broadcast, instead of broadcasting anyway. -/

/-- C3 counterexample: when `insert_one` fails on a valid report, the
raised error propagates to the caller and the broadcast on line 268 is
never executed — the broadcast log stays empty, contradicting the claim
that the event is still published to the hub. -/
theorem persistence_failure_counterexample :
    (save_gps_data 80 false 0 "user"
      { device_id := "D1", latitude := 1, longitude := 2, speed := 10,
        altitude := 0, heading := 0 }
      { gps_store := [], broadcast_log := [] }).1.broadcast_log = [] ∧
    (save_gps_data 80 false 0 "user"
      { device_id := "D1", latitude := 1, longitude := 2, speed := 10,
        altitude := 0, heading := 0 }
      { gps_store := [], broadcast_log := [] }).2 = Except.error "insert_one failed" := by
  exact ⟨rfl, rfl⟩

/-- C3 amended: if the durable append fails, the storage error is the
caller-visible result, but the broadcast event is NOT published: the
handler aborts at the insert, leaving the store and the broadcast log
unchanged. -/
theorem persistence_failure_aborts_broadcast (SPEED_LIMIT now : ℚ) (user : String)
    (g : GPSInput) (st : ServerState) :
    (save_gps_data SPEED_LIMIT false now user g st).1 = st ∧
    (save_gps_data SPEED_LIMIT false now user g st).2 = Except.error "insert_one failed" := by
  exact ⟨rfl, rfl⟩

/-! C10: the broadcast event always mirrors the stored record. -/

/-- C10: every accepted report appends exactly one record to the store
and hands exactly one event to the hub, and the two agree on device_id,
latitude, longitude, speed, status and timestamp. -/
theorem broadcast_event_matches_record (SPEED_LIMIT now : ℚ) (user : String)
    (g : GPSInput) (st : ServerState) :
    ∃ rec : GPSData, ∃ ev : BroadcastEvent,
      (save_gps_data SPEED_LIMIT true now user g st).1.gps_store = st.gps_store ++ [rec] ∧
      (save_gps_data SPEED_LIMIT true now user g st).1.broadcast_log
        = st.broadcast_log ++ [ev] ∧
      ev.device_id = rec.device_id ∧ ev.latitude = rec.latitude ∧
      ev.longitude = rec.longitude ∧ ev.speed = rec.speed ∧
      ev.status = rec.status ∧ ev.timestamp = rec.timestamp := by
  refine ⟨_, _, rfl, rfl, rfl, rfl, rfl, rfl, rfl, rfl⟩

/-! C8: `connect` is a plain list append, so registration is not
idempotent. -/

/-- C8 counterexample: connection 0 is already registered, yet
registering it again changes the connection list (it now holds a
duplicate), contradicting idempotence. -/
theorem connect_not_idempotent :
    (0 : ℕ) ∈ [0] ∧ connect [0] 0 ≠ [0] := by decide

/-- C8 amended: `connect` always appends the connection, growing the
list by one and incrementing that connection's multiplicity even when it
is already registered — registration is not idempotent and produces
duplicate entries. -/
theorem connect_always_appends (active_connections : List ℕ) (websocket : ℕ) :
    (connect active_connections websocket).length = active_connections.length + 1 ∧
    (connect active_connections websocket).count websocket
      = active_connections.count websocket + 1 := by
  constructor
  · simp [connect]
  · simp [connect, List.count_append]

/-! C4: removing a failing connection while iterating skips the next
connection, so a healthy connection registered right after a failing one
receives nothing. -/

/-- C4: evaluation of `broadcast` at the failing input — connection 0
(whose send raises) followed by healthy connection 1.  The `for` loop
yields index 0, the failing send triggers `disconnect`, the list shrinks
to `[1]`, and the iterator's next index 1 is already past the end: the
loop ends with the healthy connection never receiving the message
(delivered list empty), although the failing connection was removed and
no error reached the caller. -/
theorem broadcast_skips_next_after_failed_send :
    broadcast (fun c => c == 0) [0, 1] = ([1], []) := by decide

/-! C7: metric properties of `calculate_distance`. -/

theorem arctan_nonneg_of_nonneg {t : ℝ} (ht : 0 ≤ t) : 0 ≤ Real.arctan t := by
  have h := Real.arctan_strictMono.monotone ht
  rwa [Real.arctan_zero] at h

theorem atan2_nonneg {y x : ℝ} (hy : 0 ≤ y) : 0 ≤ atan2 y x := by
  unfold atan2
  split_ifs with h1 h2 h3 h4
  · exact arctan_nonneg_of_nonneg (div_nonneg hy h1.le)
  · have harc := Real.neg_pi_div_two_lt_arctan (y / x)
    have hpi := Real.pi_pos
    linarith
  · have hpi := Real.pi_pos
    linarith
  · exact absurd hy (not_le.mpr h4)
  · exact le_refl 0

theorem calculate_distance_nonneg (lat1 lon1 lat2 lon2 : ℝ) :
    0 ≤ calculate_distance lat1 lon1 lat2 lon2 := by
  have h : 0 ≤ atan2 (Real.sqrt (Real.sin ((radians lat2 - radians lat1) / 2) ^ 2 +
      Real.cos (radians lat1) * Real.cos (radians lat2) *
        Real.sin ((radians lon2 - radians lon1) / 2) ^ 2))
      (Real.sqrt (1 - (Real.sin ((radians lat2 - radians lat1) / 2) ^ 2 +
        Real.cos (radians lat1) * Real.cos (radians lat2) *
          Real.sin ((radians lon2 - radians lon1) / 2) ^ 2))) :=
    atan2_nonneg (Real.sqrt_nonneg _)
  unfold calculate_distance
  positivity

theorem calculate_distance_self (lat lon : ℝ) :
    calculate_distance lat lon lat lon = 0 := by
  unfold calculate_distance
  simp [atan2, Real.sqrt_one]

theorem calculate_distance_symm (lat1 lon1 lat2 lon2 : ℝ) :
    calculate_distance lat1 lon1 lat2 lon2 = calculate_distance lat2 lon2 lat1 lon1 := by
  have hsin : ∀ u v : ℝ, Real.sin ((u - v) / 2) ^ 2 = Real.sin ((v - u) / 2) ^ 2 := by
    intro u v
    rw [show (u - v) / 2 = -((v - u) / 2) by ring, Real.sin_neg]
    ring
  have key : ∀ p q r s : ℝ,
      Real.sin ((p - q) / 2) ^ 2 + Real.cos q * Real.cos p * Real.sin ((r - s) / 2) ^ 2 =
      Real.sin ((q - p) / 2) ^ 2 + Real.cos p * Real.cos q * Real.sin ((s - r) / 2) ^ 2 := by
    intro p q r s
    rw [hsin p q, hsin r s]
    ring
  simp only [calculate_distance]
  rw [key (radians lat2) (radians lat1) (radians lon2) (radians lon1)]

/-- C7: for coordinates in range, `calculate_distance` is non-negative,
is exactly 0 from a point to itself (so certainly within the 1e-9 km
tolerance), and is symmetric in its two endpoints. -/
theorem calculate_distance_props (lat1 lon1 lat2 lon2 : ℝ)
    (hlat1 : -90 ≤ lat1 ∧ lat1 ≤ 90) (hlat2 : -90 ≤ lat2 ∧ lat2 ≤ 90)
    (hlon1 : -180 ≤ lon1 ∧ lon1 ≤ 180) (hlon2 : -180 ≤ lon2 ∧ lon2 ≤ 180) :
    0 ≤ calculate_distance lat1 lon1 lat2 lon2 ∧
    calculate_distance lat1 lon1 lat1 lon1 = 0 ∧
    calculate_distance lat1 lon1 lat2 lon2 = calculate_distance lat2 lon2 lat1 lon1 :=
  ⟨calculate_distance_nonneg lat1 lon1 lat2 lon2,
    calculate_distance_self lat1 lon1,
    calculate_distance_symm lat1 lon1 lat2 lon2⟩

/-- Witness for C7 at the Jakarta-area coordinates of the spec's
scenario. -/
theorem calculate_distance_props_witness :
    ((-90 : ℝ) ≤ -6.2 ∧ (-6.2 : ℝ) ≤ 90) ∧ ((-90 : ℝ) ≤ -6.201 ∧ (-6.201 : ℝ) ≤ 90) ∧
    ((-180 : ℝ) ≤ 106.8 ∧ (106.8 : ℝ) ≤ 180) ∧ ((-180 : ℝ) ≤ 106.801 ∧ (106.801 : ℝ) ≤ 180) ∧
    (0 ≤ calculate_distance (-6.2) 106.8 (-6.201) 106.801 ∧
      calculate_distance (-6.2) 106.8 (-6.2) 106.8 = 0 ∧
      calculate_distance (-6.2) 106.8 (-6.201) 106.801
        = calculate_distance (-6.201) 106.801 (-6.2) 106.8) :=
  ⟨⟨by norm_num, by norm_num⟩, ⟨by norm_num, by norm_num⟩,
    ⟨by norm_num, by norm_num⟩, ⟨by norm_num, by norm_num⟩,
    calculate_distance_props (-6.2) 106.8 (-6.201) 106.801
      ⟨by norm_num, by norm_num⟩ ⟨by norm_num, by norm_num⟩
      ⟨by norm_num, by norm_num⟩ ⟨by norm_num, by norm_num⟩⟩

/-! C1: folding a gap-free report sequence through the session tracker. -/

theorem countP_ext {α : Type} (p q : α → Bool) :
    ∀ l : List α, (∀ a ∈ l, p a = q a) → l.countP p = l.countP q := by
  intro l
  induction l with
  | nil => intro _; rfl
  | cons a l ih =>
    intro h
    rw [List.countP_cons, List.countP_cons, h a (List.mem_cons_self a l),
      ih fun b hb => h b (List.mem_cons_of_mem a hb)]

theorem runTracker_cons (L T : ℚ) (dev : String) (r0 : TimedReport) (rs : List TimedReport) :
    runTracker L T dev (r0 :: rs)
      = some (foldOpen L T dev (sessionUpdate L T dev none r0) rs) := by
  have h : ∀ (l : List TimedReport) (o : OpenSession),
      List.foldl (fun s r => some (sessionUpdate L T dev s r)) (some o) l
        = some (foldOpen L T dev o l) := by
    intro l
    induction l with
    | nil => intro o; rfl
    | cons r l ih =>
      intro o
      simpa [foldOpen] using ih (sessionUpdate L T dev (some o) r)
  simpa [runTracker] using h rs (sessionUpdate L T dev none r0)

theorem foldOpen_stats (L T : ℚ) (dev : String) :
    ∀ (rs : List TimedReport) (o : OpenSession),
      noGap T o.last_update rs = true →
      (foldOpen L T dev o rs).session.total_distance
          = o.session.total_distance + pathDistance o.last_position rs ∧
      (foldOpen L T dev o rs).session.max_speed
          = rs.foldl (fun m x => max m x.speed) o.session.max_speed ∧
      (foldOpen L T dev o rs).session.overspeed_count
          = o.session.overspeed_count +
            rs.countP (fun r => decide (determine_status L r.speed = "overspeed")) := by
  intro rs
  induction rs with
  | nil =>
    intro o _
    simp [foldOpen, pathDistance]
  | cons r rs ih =>
    intro o h
    rw [noGap, Bool.and_eq_true, decide_eq_true_eq] at h
    obtain ⟨hle, hrest⟩ := h
    have hcond : ¬ T < r.observed_at - o.last_update := not_lt.mpr hle
    have hfold : foldOpen L T dev o (r :: rs)
        = foldOpen L T dev (sessionUpdate L T dev (some o) r) rs := rfl
    have hd : (sessionUpdate L T dev (some o) r).session.total_distance
        = o.session.total_distance +
          calculate_distance (o.last_position.1 : ℝ) (o.last_position.2 : ℝ)
            (r.latitude : ℝ) (r.longitude : ℝ) := by
      simp [sessionUpdate, applyStats, if_neg hcond]
    have hm : (sessionUpdate L T dev (some o) r).session.max_speed
        = max o.session.max_speed r.speed := by
      simp [sessionUpdate, applyStats, if_neg hcond]
    have hc : (sessionUpdate L T dev (some o) r).session.overspeed_count
        = o.session.overspeed_count +
          (if determine_status L r.speed = "overspeed" then 1 else 0) := by
      simp [sessionUpdate, applyStats, if_neg hcond]
    have hu : (sessionUpdate L T dev (some o) r).last_update = r.observed_at := by
      simp [sessionUpdate, applyStats, if_neg hcond]
    have hp : (sessionUpdate L T dev (some o) r).last_position = (r.latitude, r.longitude) := by
      simp [sessionUpdate, applyStats, if_neg hcond]
    have hrest' : noGap T (sessionUpdate L T dev (some o) r).last_update rs = true := by
      rw [hu]; exact hrest
    obtain ⟨ihd, ihm, ihc⟩ := ih (sessionUpdate L T dev (some o) r) hrest'
    refine ⟨?_, ?_, ?_⟩
    · rw [hfold, ihd, hd, hp, pathDistance, add_assoc]
    · rw [hfold, ihm, hm, List.foldl_cons]
    · rw [hfold, ihc, hc, List.countP_cons]
      by_cases hov : determine_status L r.speed = "overspeed"
      · simp [hov]
        omega
      · simp [hov]

/-- C1: for a nonempty sequence of reports for one device with no idle
gap exceeding the timeout, nonnegative speeds and a nonnegative limit,
folding the whole sequence through the (spec-modelled) SessionTracker
yields an open `TravelSession` whose `total_distance` is the sum of
pairwise Haversine distances between consecutive positions, whose
`max_speed` is the maximum submitted speed, and whose `overspeed_count`
is the number of reports with speed strictly above the limit. -/
theorem session_fold_aggregates (SPEED_LIMIT IDLE_TIMEOUT : ℚ) (dev : String)
    (r0 : TimedReport) (rs : List TimedReport)
    (hgap : noGap IDLE_TIMEOUT r0.observed_at rs = true)
    (hL : 0 ≤ SPEED_LIMIT)
    (hspd : ∀ r ∈ r0 :: rs, 0 ≤ r.speed) :
    ∃ o : OpenSession,
      runTracker SPEED_LIMIT IDLE_TIMEOUT dev (r0 :: rs) = some o ∧
      o.session.total_distance = sumPairwise (r0 :: rs) ∧
      o.session.max_speed = maxSpeedOf (r0 :: rs) ∧
      o.session.overspeed_count = overspeedCount SPEED_LIMIT (r0 :: rs) := by
  set o0 := sessionUpdate SPEED_LIMIT IDLE_TIMEOUT dev none r0 with ho0
  have h0d : o0.session.total_distance = 0 := by
    simp [ho0, sessionUpdate, applyStats, freshSession]
  have h0m : o0.session.max_speed = r0.speed := by
    have : max (0 : ℚ) r0.speed = r0.speed :=
      max_eq_right (hspd r0 (List.mem_cons_self r0 rs))
    simp [ho0, sessionUpdate, applyStats, freshSession, this]
  have h0c : o0.session.overspeed_count
      = (if determine_status SPEED_LIMIT r0.speed = "overspeed" then 1 else 0) := by
    simp [ho0, sessionUpdate, applyStats, freshSession]
  have h0u : o0.last_update = r0.observed_at := by
    simp [ho0, sessionUpdate, applyStats, freshSession]
  have h0p : o0.last_position = (r0.latitude, r0.longitude) := by
    simp [ho0, sessionUpdate, applyStats, freshSession]
  have hgap' : noGap IDLE_TIMEOUT o0.last_update rs = true := by
    rw [h0u]; exact hgap
  obtain ⟨hd, hm, hc⟩ := foldOpen_stats SPEED_LIMIT IDLE_TIMEOUT dev rs o0 hgap'
  refine ⟨foldOpen SPEED_LIMIT IDLE_TIMEOUT dev o0 rs,
    runTracker_cons SPEED_LIMIT IDLE_TIMEOUT dev r0 rs, ?_, ?_, ?_⟩
  · rw [hd, h0d, h0p, zero_add, sumPairwise]
  · rw [hm, h0m, maxSpeedOf]
  · rw [hc, h0c]
    have hcountP : rs.countP (fun r => decide (determine_status SPEED_LIMIT r.speed = "overspeed"))
        = rs.countP (fun r => decide (SPEED_LIMIT < r.speed)) := by
      refine countP_ext _ _ rs fun a _ => ?_
      simp only [decide_eq_decide]
      exact status_eq_overspeed_iff SPEED_LIMIT a.speed hL
    rw [hcountP]
    simp only [overspeedCount, List.countP_cons]
    by_cases hov : determine_status SPEED_LIMIT r0.speed = "overspeed"
    · have hlt : SPEED_LIMIT < r0.speed :=
        (status_eq_overspeed_iff SPEED_LIMIT r0.speed hL).mp hov
      simp [hov, hlt]
      omega
    · have hlt : ¬ SPEED_LIMIT < r0.speed :=
        fun hl => hov ((status_eq_overspeed_iff SPEED_LIMIT r0.speed hL).mpr hl)
      simp [hov, hlt]

/-- Witness for C1: three reports at 60-second intervals with speeds
0, 40, 95 against limit 80 and timeout 300. -/
theorem session_fold_aggregates_witness :
    noGap 300 (0 : ℚ)
      [{ latitude := 1, longitude := 1, speed := 40, observed_at := 60 },
       { latitude := 2, longitude := 2, speed := 95, observed_at := 120 }] = true ∧
    (0 : ℚ) ≤ 80 ∧
    (∀ r ∈ ({ latitude := 0, longitude := 0, speed := 0, observed_at := 0 } : TimedReport) ::
        [{ latitude := 1, longitude := 1, speed := 40, observed_at := 60 },
         { latitude := 2, longitude := 2, speed := 95, observed_at := 120 }], 0 ≤ r.speed) ∧
    (∃ o : OpenSession,
      runTracker 80 300 "D1"
        ({ latitude := 0, longitude := 0, speed := 0, observed_at := 0 } ::
          [{ latitude := 1, longitude := 1, speed := 40, observed_at := 60 },
           { latitude := 2, longitude := 2, speed := 95, observed_at := 120 }]) = some o ∧
      o.session.total_distance = sumPairwise
        ({ latitude := 0, longitude := 0, speed := 0, observed_at := 0 } ::
          [{ latitude := 1, longitude := 1, speed := 40, observed_at := 60 },
           { latitude := 2, longitude := 2, speed := 95, observed_at := 120 }]) ∧
      o.session.max_speed = maxSpeedOf
        ({ latitude := 0, longitude := 0, speed := 0, observed_at := 0 } ::
          [{ latitude := 1, longitude := 1, speed := 40, observed_at := 60 },
           { latitude := 2, longitude := 2, speed := 95, observed_at := 120 }]) ∧
      o.session.overspeed_count = overspeedCount 80
        ({ latitude := 0, longitude := 0, speed := 0, observed_at := 0 } ::
          [{ latitude := 1, longitude := 1, speed := 40, observed_at := 60 },
           { latitude := 2, longitude := 2, speed := 95, observed_at := 120 }])) :=
  ⟨by norm_num [noGap], by norm_num, by decide,
    session_fold_aggregates 80 300 "D1"
      { latitude := 0, longitude := 0, speed := 0, observed_at := 0 }
      [{ latitude := 1, longitude := 1, speed := 40, observed_at := 60 },
       { latitude := 2, longitude := 2, speed := 95, observed_at := 120 }]
      (by norm_num [noGap]) (by norm_num) (by decide)⟩

end GPSServer
